import Mathlib

/-!
Shallow embedding of `src/media/streaming.rs` of the crunchyroll-rs
repository: locale-based stream resolution, HLS and MPEG-DASH variant and
segment expansion, and segment decryption, together with proofs of the
specification claims about them.

External collaborators (the HTTP executor and the `m3u8_rs` / `dash_mpd` /
`aes`+`cbc` crates) are modelled as explicit function parameters; their
result shapes follow exactly the fields the source reads.  Rust `Result`
values together with `expect`/`unwrap`/indexing panics are modelled by
`Except Failure`, where `Failure` distinguishes an `Err` value returned to
the caller from a process abort.
-/

namespace CrunchyStreaming

/-- Byte strings are modelled as lists of naturals. -/
abbrev Bytes := List Nat

/-- Bytes of a Rust string (`str::as_bytes`), modelled as the code points;
this agrees with UTF-8 on all ASCII data this development evaluates. -/
def strBytes (s : String) : Bytes := s.data.map Char.toNat

/-- Core of Rust `str::replace` on character lists: replace every
non-overlapping occurrence of `pat` by `rep`, scanning left to right.
The recursion is driven by a fuel argument (instantiated with the length
of the subject, which always suffices because every step consumes at
least one character) so that the definition is structurally recursive
and evaluates inside the kernel. -/
def replaceFuel (pat rep : List Char) : Nat → List Char → List Char
  | 0, s => s
  | _ + 1, [] => []
  | fuel + 1, c :: rest =>
    if pat ≠ [] ∧ pat.isPrefixOf (c :: rest) then
      rep ++ replaceFuel pat rep fuel (List.drop pat.length (c :: rest))
    else
      c :: replaceFuel pat rep fuel rest

/-- Rust `str::replace`. -/
def strReplace (s pat rep : String) : String :=
  ⟨replaceFuel pat.data rep.data s.data.length s.data⟩

/-- Nanosecond-valued model of `std::time::Duration`. -/
structure Duration where
  nanos : Nat
deriving DecidableEq

/-- `Duration::from_secs`. -/
def Duration.from_secs (n : Nat) : Duration := ⟨n * 1000000000⟩

/-- `Duration::from_millis`. -/
def Duration.from_millis (n : Nat) : Duration := ⟨n * 1000000⟩

/-- Modelled from the spec: opaque transport-layer error produced by the
byte-fetch collaborator and propagated unchanged (spec section 7). -/
structure TransportError where
  code : Nat
deriving DecidableEq

/-- The error variants that `streaming.rs` constructs, together with the
transport errors it propagates.  The crate's `error.rs` is outside `src/`;
the variants and their payloads follow their construction sites in the
source (`Error::Input { message }`, `Error::Decode { message, content,
url }`, `Error::Internal { message }`) and section 7 of the spec. -/
inductive Error where
  | input (message : String)
  | decode (message : String) (content : Bytes) (url : String)
  | internal (message : String)
  | transport (e : TransportError)
deriving DecidableEq

/-- Outcome of a fallible Rust computation: either an `Err` value that is
returned to the immediate caller, or a process abort raised by
`expect` / `unwrap` / out-of-bounds indexing. -/
inductive Failure where
  | error (e : Error)
  | panic (message : String)
deriving DecidableEq

/-- Result type of the embedded functions. -/
abbrev Res (α : Type) := Except Failure α

/-- The byte-fetch collaborator, `executor.get(url).request_raw()`. -/
abbrev Fetch := String → Except TransportError Bytes

/-- Propagation of a fetch result by the `?` operator: transport errors
become returned errors of the surrounding function. -/
def liftFetch (r : Except TransportError Bytes) : Res Bytes :=
  match r with
  | .ok b => .ok b
  | .error e => .error (.error (.transport e))

/-- `Option::expect`: the value, or a process abort carrying the message. -/
def expectP {α : Type} (o : Option α) (msg : String) : Res α :=
  match o with
  | some a => .ok a
  | none => .error (.panic msg)

/-- Model of `cbc::Decryptor<aes::Aes128>` as the key/IV pair it is
constructed from; the 16-byte length requirement enforced by the external
constructor is not modelled. -/
structure Aes128CbcDec where
  key : Bytes
  iv : Bytes
deriving DecidableEq

/-- `Aes128CbcDec::new(key, iv)`. -/
def Aes128CbcDec.new (key iv : Bytes) : Aes128CbcDec := ⟨key, iv⟩

/-- Video resolution (source struct `Resolution`, `u64` fields). -/
structure Resolution where
  width : Nat
  height : Nat
deriving DecidableEq

/-- The source computes `fps : f64` either from an HLS master variant's
optional `frame_rate` or by parsing a DASH `frameRate` fraction string.
Floating-point arithmetic is not modelled; the embedding records the
input the `f64` is computed from.  No claim inspects the numeric value. -/
inductive Fps where
  | ofMaster (frame_rate : Option Nat)
  | ofMpd (frameRate : Option String)
deriving DecidableEq

/-- Source enum `VariantDataUrl`: the addressing mode of a variant. -/
inductive VariantDataUrl where
  | hls (url : String)
  | mpegDash (id : String) (base : String) (init : String)
      (fragments : String) (start : Nat) (lengths : List Nat)
deriving DecidableEq

/-- Source struct `VariantData` (the `executor` handle is omitted). -/
structure VariantData where
  resolution : Resolution
  bandwidth : Nat
  fps : Fps
  codecs : String
  url : VariantDataUrl
deriving DecidableEq

/-- Source struct `VariantSegment` (the `executor` handle is omitted). -/
structure VariantSegment where
  key : Option Aes128CbcDec
  url : String
  length : Duration
deriving DecidableEq

/-- Model of the `m3u8_rs` media-segment key block as read by the source
(`k.uri`, `k.iv`). -/
structure MediaSegmentKey where
  uri : Option String
  iv : Option String
deriving DecidableEq

/-- Model of an `m3u8_rs` media-playlist segment as read by the source
(`segment.key`, `segment.uri`, `segment.duration`).  The source converts
the `f32` duration with `Duration::from_secs_f32`; the parse collaborator
is modelled as delivering the resulting `Duration` directly, since no
claim depends on the float conversion. -/
structure MediaSegment where
  key : Option MediaSegmentKey
  uri : String
  duration : Duration
deriving DecidableEq

/-- Model of an `m3u8_rs` media playlist. -/
structure MediaPlaylist where
  segments : List MediaSegment
deriving DecidableEq

/-- Model of an `m3u8_rs` master-playlist variant as read by the source.
`frame_rate` is an `f64` upstream; it is carried opaquely (see `Fps`). -/
structure MasterVariant where
  uri : String
  bandwidth : Nat
  resolution : Option Resolution
  frame_rate : Option Nat
  codecs : Option String
deriving DecidableEq

/-- Model of an `m3u8_rs` master playlist. -/
structure MasterPlaylist where
  variants : List MasterVariant
deriving DecidableEq

/-- Model of a `dash_mpd` timeline element `S`: a duration and an optional
repeat count.  Upstream the repeat count is an `i64`; negative values lie
outside the repeat-count domain the source and spec describe and are not
modelled. -/
structure S where
  d : Nat
  r : Option Nat
deriving DecidableEq

/-- Model of `dash_mpd::SegmentTimeline`. -/
structure SegmentTimeline where
  segments : List S
deriving DecidableEq

/-- Model of `dash_mpd::SegmentTemplate` as read by the source.  The
upstream field names `SegmentTimeline`/`startNumber` are kept except that
the timeline field is written `segmentTimeline` to avoid clashing with
its type name. -/
structure SegmentTemplate where
  initialization : Option String
  media : Option String
  startNumber : Option Nat
  segmentTimeline : Option SegmentTimeline
deriving DecidableEq

/-- Model of a `dash_mpd` base-URL entry. -/
structure BaseURL where
  base : String
deriving DecidableEq

/-- Model of a `dash_mpd::Representation` as read by the source.  The
upstream field name `BaseURL` is written `baseURL` to avoid clashing with
its type name. -/
structure Representation where
  id : Option String
  frameRate : Option String
  width : Option Nat
  height : Option Nat
  bandwidth : Option Nat
  codecs : Option String
  baseURL : List BaseURL
deriving DecidableEq

/-- Model of a `dash_mpd` adaptation set as read by the source. -/
structure AdaptationSet where
  maxWidth : Option Nat
  maxHeight : Option Nat
  segmentTemplate : Option SegmentTemplate
  representations : List Representation
deriving DecidableEq

/-- Model of a `dash_mpd::Period`. -/
structure Period where
  adaptations : List AdaptationSet
deriving DecidableEq

/-- Model of a parsed `dash_mpd` manifest. -/
structure MPD where
  periods : List Period
deriving DecidableEq

/-- Modelled from the spec: `Locale` is an opaque language/region tag
(the crate's `Locale` enum lives outside `src/`); the source constructs
the sentinel values `Locale::Custom("")` and `Locale::Custom(":")` and
renders a locale as its tag in error messages. -/
structure Locale where
  tag : String
deriving DecidableEq

/-- `Locale::Custom`. -/
def Locale.custom (s : String) : Locale := ⟨s⟩

/-- Modelled from the spec: the URL payload of one transport entry of a
raw stream descriptor (the source reads its `url` field). -/
structure StreamUrl where
  url : String
deriving DecidableEq

/-- Modelled from the spec: a raw stream descriptor holding zero or one
HLS master URL and zero or one DASH MPD URL (the source reads the
`adaptive_hls` and `adaptive_dash` fields). -/
structure RawStream where
  adaptive_hls : Option StreamUrl
  adaptive_dash : Option StreamUrl
deriving DecidableEq

/-- Modelled from the spec: the locale-indexed `RawStreamSet` held in
`Stream.variants` — a mapping with unique keys, modelled as an
association list. -/
structure Stream where
  variants : List (Locale × RawStream)

/-- Lookup in the locale-indexed map (`self.variants.get(&locale)`). -/
def getVariant : List (Locale × RawStream) → Locale → Option RawStream
  | [], _ => none
  | p :: rest, l => if p.1 = l then some p.2 else getVariant rest l

/-- Expansion of the DASH segment timeline into the `lengths` field of
`VariantDataUrl::MpegDash` (source lines 345-356): each timeline entry
contributes `r + 1` copies of its duration `d`, with a missing repeat
count defaulting to zero (`s.r.unwrap_or_default() as usize + 1`),
preserving timeline order (`flat_map`). -/
def expandTimeline : List S → List Nat
  | [] => []
  | s :: rest => List.replicate (s.r.getD 0 + 1) s.d ++ expandTimeline rest

/-- Body of `VariantData::from_mpeg_mpd_representations` for a single
representation (non-`__test_strict` branch, source lines 306-358).  Each
required field is taken with `expect`, in the evaluation order of the
source's struct literal; the `as u32` cast of the start number is the
reduction modulo 2^32. -/
def processRepresentation (segment_template : SegmentTemplate)
    (representation : Representation) : Res VariantData :=
  match representation.id with
  | none => .error (.panic "dash representation id")
  | some id =>
    match representation.baseURL.head? with
    | none => .error (.panic "dash base url")
    | some baseUrl =>
      match segment_template.initialization with
      | none => .error (.panic "dash initialization url")
      | some init =>
        match segment_template.media with
        | none => .error (.panic "dash media url")
        | some fragments =>
          match segment_template.startNumber with
          | none => .error (.panic "dash start number")
          | some start =>
            match segment_template.segmentTimeline with
            | none => .error (.panic "dash segment timeline")
            | some timeline =>
              .ok {
                resolution := ⟨representation.width.getD 0, representation.height.getD 0⟩
                bandwidth := representation.bandwidth.getD 0
                fps := Fps.ofMpd representation.frameRate
                codecs := representation.codecs.getD ""
                url := .mpegDash id baseUrl.base init fragments
                  (start % 4294967296) (expandTimeline timeline.segments) }

/-- `VariantData::from_mpeg_mpd_representations`: process the
representations in order, collecting the variant descriptors. -/
def from_mpeg_mpd_representations (segment_template : SegmentTemplate) :
    List Representation → Res (List VariantData)
  | [] => .ok []
  | rep :: rest =>
    match processRepresentation segment_template rep with
    | .error f => .error f
    | .ok v =>
      match from_mpeg_mpd_representations segment_template rest with
      | .error f => .error f
      | .ok vs => .ok (v :: vs)

/-- `VariantData::from_hls_master` (non-`__test_strict` branch): fetch the
master playlist, decode it (decode failures carry the raw bytes and the
URL), and turn every master variant into an HLS-addressed descriptor with
missing resolution/fps/codecs defaulted. -/
def from_hls_master (fetch : Fetch)
    (parseMasterPlaylist : Bytes → Except String MasterPlaylist)
    (url : String) : Res (List VariantData) :=
  match liftFetch (fetch url) with
  | .error f => .error f
  | .ok raw =>
    match parseMasterPlaylist raw with
    | .error e => .error (.error (.decode e raw url))
    | .ok mp =>
      .ok (mp.variants.map fun v =>
        { resolution := v.resolution.getD ⟨0, 0⟩
          bandwidth := v.bandwidth
          fps := Fps.ofMaster v.frame_rate
          codecs := v.codecs.getD ""
          url := .hls v.uri })

/-- IV selection of the HLS key handling (source lines 443-448): the key
block's IV when it is present and nonempty (its bytes are used verbatim),
otherwise the raw fetched key bytes themselves. -/
def hlsIv (iv : Option String) (raw_key : Bytes) : Bytes :=
  let temp_iv := iv.getD ""
  if temp_iv = "" then raw_key else strBytes temp_iv

/-- Key-slot update performed for one playlist segment (source lines
439-452): a key block with a key URI fetches the key bytes and installs a
new cipher built from them and `hlsIv`; any other segment leaves the
current key untouched. -/
def hlsKeyUpdate (fetch : Fetch) (key : Option Aes128CbcDec)
    (segment : MediaSegment) : Res (Option Aes128CbcDec) :=
  match segment.key with
  | some k =>
    match k.uri with
    | some url =>
      match liftFetch (fetch url) with
      | .error f => .error f
      | .ok raw_key => .ok (some (Aes128CbcDec.new raw_key (hlsIv k.iv raw_key)))
    | none => .ok key
  | none => .ok key

/-- The segment-emitting loop of `VariantData::hls_segments` (source lines
435-460): thread the mutable key slot left to right, emitting one
`VariantSegment` per playlist segment with a clone of the current key. -/
def hlsSegmentsLoop (fetch : Fetch) :
    Option Aes128CbcDec → List MediaSegment → Res (List VariantSegment)
  | _, [] => .ok []
  | key, segment :: rest =>
    match hlsKeyUpdate fetch key segment with
    | .error f => .error f
    | .ok key2 =>
      match hlsSegmentsLoop fetch key2 rest with
      | .error f => .error f
      | .ok tail => .ok ({ key := key2, url := segment.uri, length := segment.duration } :: tail)

/-- `VariantData::hls_segments`: fetch and decode the media playlist of an
HLS-addressed variant and run the segment loop with an initially empty
key slot; on a non-HLS address, the internal mode-mismatch error. -/
def hls_segments (fetch : Fetch)
    (parseMediaPlaylist : Bytes → Except String MediaPlaylist)
    (self : VariantData) : Res (List VariantSegment) :=
  match self.url with
  | .hls url =>
    match liftFetch (fetch url) with
    | .error f => .error f
    | .ok raw =>
      match parseMediaPlaylist raw with
      | .error e => .error (.error (.decode e raw url))
      | .ok mp => hlsSegmentsLoop fetch none mp.segments
  | _ => .error (.error (.internal "variant url should be hls"))

/-- `VariantData::dash_segments` (source lines 482-518): a zero-duration
initialization segment built from the init template, followed by one
segment per number in `start .. lengths.len() + start + 1`, substituting
`$Number$` and then `$RepresentationID$` in the media template, with the
duration taken from `lengths[i]` and defaulting to zero; on a non-DASH
address, the internal mode-mismatch error. -/
def dash_segments (self : VariantData) : Res (List VariantSegment) :=
  match self.url with
  | .mpegDash id base init fragments start lengths =>
    .ok ({ key := none
           url := base ++ strReplace init "$RepresentationID$" id
           length := Duration.from_secs 0 }
      :: (List.range (lengths.length + 1)).map fun i =>
        { key := none
          url := base ++ strReplace (strReplace fragments "$Number$" (Nat.repr (start + i)))
            "$RepresentationID$" id
          length := Duration.from_millis ((lengths.get? i).getD 0) })
  | _ => .error (.error (.internal "variant url should be dash"))

/-- `VariantData::segments`: dispatch on the addressing mode. -/
def segments (fetch : Fetch)
    (parseMediaPlaylist : Bytes → Except String MediaPlaylist)
    (self : VariantData) : Res (List VariantSegment) :=
  match self.url with
  | .hls _ => hls_segments fetch parseMediaPlaylist self
  | .mpegDash _ _ _ _ _ _ => dash_segments self

/-- `Stream::hls_streaming_data` (source lines 37-88): resolve the hardsub
locale against the variants map — the requested locale exactly when one is
given, otherwise the `""` sentinel and then the `":"` sentinel — and run
`from_hls_master` on the located descriptor's `adaptive_hls` URL. -/
def hls_streaming_data (fetch : Fetch)
    (parseMasterPlaylist : Bytes → Except String MasterPlaylist)
    (self : Stream) (hardsub : Option Locale) : Res (List VariantData) :=
  match hardsub with
  | some locale =>
    match getVariant self.variants locale with
    | some raw_streams =>
      match raw_streams.adaptive_hls with
      | some s => from_hls_master fetch parseMasterPlaylist s.url
      | none => .error (.error (.input "no stream available"))
    | none =>
      .error (.error (.input
        ("could not find any stream with hardsub locale '" ++ locale.tag ++ "'")))
  | none =>
    match getVariant self.variants (Locale.custom "") with
    | some raw_streams =>
      match raw_streams.adaptive_hls with
      | some s => from_hls_master fetch parseMasterPlaylist s.url
      | none => .error (.error (.input "no stream available"))
    | none =>
      match getVariant self.variants (Locale.custom ":") with
      | some raw_streams =>
        match raw_streams.adaptive_hls with
        | some s => from_hls_master fetch parseMasterPlaylist s.url
        | none => .error (.error (.input "no stream available"))
      | none => .error (.error (.internal "could not find supported stream"))

/-- The adaptation-set loop of `Stream::dash_streaming_data` (source lines
161-181): take each set's segment template with `expect`, expand its
representations, and extend the video collection when the set declares
`maxWidth` or `maxHeight`, the audio collection otherwise. -/
def dashLoop : List AdaptationSet → Res (List VariantData × List VariantData)
  | [] => .ok ([], [])
  | adaption :: rest =>
    match expectP adaption.segmentTemplate "dash segment template" with
    | .error f => .error f
    | .ok st =>
      match from_mpeg_mpd_representations st adaption.representations with
      | .error f => .error f
      | .ok vs =>
        match dashLoop rest with
        | .error f => .error f
        | .ok p =>
          if adaption.maxWidth.isSome || adaption.maxHeight.isSome then
            .ok (vs ++ p.1, p.2)
          else
            .ok (p.1, vs ++ p.2)

/-- The post-resolution pipeline of `Stream::dash_streaming_data` (source
lines 146-183): fetch the MPD, decode it (decode failures carry the raw
bytes and URL), index period 0 (an abort on an empty period list, as Rust
indexing), and run the adaptation loop. -/
def dashAfterUrl (fetch : Fetch) (parseMpd : Bytes → Except String MPD)
    (url : String) : Res (List VariantData × List VariantData) :=
  match liftFetch (fetch url) with
  | .error f => .error f
  | .ok raw_mpd =>
    match parseMpd raw_mpd with
    | .error e => .error (.error (.decode e raw_mpd url))
    | .ok mpd =>
      match expectP mpd.periods.head? "index out of bounds: the len is 0 but the index is 0" with
      | .error f => .error f
      | .ok period => dashLoop period.adaptations

/-- `Stream::dash_streaming_data` (source lines 109-184): resolve the
hardsub locale — the requested locale exactly when one is given, otherwise
only the `""` sentinel — and run the DASH pipeline on the located
descriptor's `adaptive_dash` URL. -/
def dash_streaming_data (fetch : Fetch) (parseMpd : Bytes → Except String MPD)
    (self : Stream) (hardsub : Option Locale) :
    Res (List VariantData × List VariantData) :=
  match hardsub with
  | some locale =>
    match getVariant self.variants locale with
    | some raw_streams =>
      match raw_streams.adaptive_dash with
      | some s => dashAfterUrl fetch parseMpd s.url
      | none => .error (.error (.input "no stream available"))
    | none =>
      .error (.error (.input
        ("could not find any stream with hardsub locale '" ++ locale.tag ++ "'")))
  | none =>
    match getVariant self.variants (Locale.custom "") with
    | some raw_streams =>
      match raw_streams.adaptive_dash with
      | some s => dashAfterUrl fetch parseMpd s.url
      | none => .error (.error (.input "no stream available"))
    | none => .error (.error (.internal "could not find supported stream"))

/-- `VariantSegment::decrypt` (source lines 543-560): with a key, run the
external AES-128-CBC/PKCS7 decryption (a collaborator parameter), turning
its failure into a decode error carrying the pre-decryption bytes and the
URL `"n/a"`; with no key, the input bytes unchanged. -/
def decrypt (cbcDecrypt : Aes128CbcDec → Bytes → Except String Bytes)
    (segment_bytes : Bytes) (key : Option Aes128CbcDec) : Res Bytes :=
  match key with
  | some k =>
    match cbcDecrypt k segment_bytes with
    | .ok d => .ok d
    | .error e => .error (.error (.decode e segment_bytes "n/a"))
  | none => .ok segment_bytes

/-- A writer in the sense of `std::io::Write`: one `write` call consumes
some count of bytes from the buffer it is handed (the contract allows any
count up to the buffer length) or fails. -/
structure Sink where
  write : Bytes → Except String Nat

/-- `VariantSegment::write_to` (source lines 563-575): fetch the segment
bytes, decrypt them, and hand them to the sink with a single `write` call
whose returned count the source discards.  The model returns the bytes
the sink actually consumed — the first `n` of the buffer when `write`
returns `n` — so that the sink-side effect of the (source-side `Ok(())`)
success path is observable. -/
def write_to (fetch : Fetch)
    (cbcDecrypt : Aes128CbcDec → Bytes → Except String Bytes)
    (w : Sink) (self : VariantSegment) : Res Bytes :=
  match liftFetch (fetch self.url) with
  | .error f => .error f
  | .ok segment =>
    match decrypt cbcDecrypt segment self.key with
    | .error f => .error f
    | .ok decrypted =>
      match w.write decrypted with
      | .ok n => .ok (List.take n decrypted)
      | .error e => .error (.error (.input e))

/-- The field-requirement cascade of `processRepresentation`, in the
evaluation order of the source: the `expect` message of the first absent
required field, or `none` when every required field is present. -/
def missingField (st : SegmentTemplate) (rep : Representation) : Option String :=
  match rep.id with
  | none => some "dash representation id"
  | some _ =>
    match rep.baseURL.head? with
    | none => some "dash base url"
    | some _ =>
      match st.initialization with
      | none => some "dash initialization url"
      | some _ =>
        match st.media with
        | none => some "dash media url"
        | some _ =>
          match st.startNumber with
          | none => some "dash start number"
          | some _ =>
            match st.segmentTimeline with
            | none => some "dash segment timeline"
            | some _ => none

/-! ### Helper lemmas -/

theorem liftFetch_shape (r : Except TransportError Bytes) :
    (∃ b, liftFetch r = .ok b) ∨ ∃ t, liftFetch r = .error (.error (.transport t)) := by
  cases r <;> simp [liftFetch]

theorem hlsKeyUpdate_not_internal (fetch : Fetch) (key : Option Aes128CbcDec)
    (segment : MediaSegment) (msg : String) :
    hlsKeyUpdate fetch key segment ≠ .error (.error (.internal msg)) := by
  unfold hlsKeyUpdate
  rcases hkey : segment.key with _ | k
  · simp
  · dsimp only
    rcases hu : k.uri with _ | url
    · simp
    · dsimp only
      rcases liftFetch_shape (fetch url) with ⟨b, hb⟩ | ⟨t, ht⟩
      · rw [hb]; simp
      · rw [ht]; simp

theorem hlsSegmentsLoop_not_internal (fetch : Fetch) (msg : String) :
    ∀ (segs : List MediaSegment) (key : Option Aes128CbcDec),
      hlsSegmentsLoop fetch key segs ≠ .error (.error (.internal msg)) := by
  intro segs
  induction segs with
  | nil => intro key; simp [hlsSegmentsLoop]
  | cons s rest ih =>
    intro key
    unfold hlsSegmentsLoop
    rcases hk : hlsKeyUpdate fetch key s with f | key2
    · dsimp only
      have := hlsKeyUpdate_not_internal fetch key s msg
      rw [hk] at this
      simpa using this
    · dsimp only
      rcases ht : hlsSegmentsLoop fetch key2 rest with f | tail
      · dsimp only
        have := ih key2
        rw [ht] at this
        simpa using this
      · simp

theorem hlsSegmentsLoop_all_none (fetch : Fetch) :
    ∀ (segs : List MediaSegment), (∀ s ∈ segs, s.key = none) →
      hlsSegmentsLoop fetch none segs
        = .ok (segs.map fun s => ⟨none, s.uri, s.duration⟩) := by
  intro segs
  induction segs with
  | nil => intro _; simp [hlsSegmentsLoop]
  | cons s rest ih =>
    intro h
    have hs : s.key = none := h s (by simp)
    have hrest : ∀ x ∈ rest, x.key = none := fun x hx => h x (by simp [hx])
    unfold hlsSegmentsLoop hlsKeyUpdate
    rw [hs]
    dsimp only
    rw [ih hrest]
    simp

theorem processRepresentation_missing (st : SegmentTemplate) (rep : Representation)
    (m : String) (h : missingField st rep = some m) :
    processRepresentation st rep = .error (.panic m) := by
  unfold missingField at h
  unfold processRepresentation
  rcases h1 : rep.id with _ | i
  · rw [h1] at h
    dsimp only at h ⊢
    injection h with h
    rw [h]
  · rw [h1] at h
    dsimp only at h ⊢
    rcases h2 : rep.baseURL.head? with _ | b
    · rw [h2] at h
      dsimp only at h ⊢
      injection h with h
      rw [h]
    · rw [h2] at h
      dsimp only at h ⊢
      rcases h3 : st.initialization with _ | init
      · rw [h3] at h
        dsimp only at h ⊢
        injection h with h
        rw [h]
      · rw [h3] at h
        dsimp only at h ⊢
        rcases h4 : st.media with _ | med
        · rw [h4] at h
          dsimp only at h ⊢
          injection h with h
          rw [h]
        · rw [h4] at h
          dsimp only at h ⊢
          rcases h5 : st.startNumber with _ | start
          · rw [h5] at h
            dsimp only at h ⊢
            injection h with h
            rw [h]
          · rw [h5] at h
            dsimp only at h ⊢
            rcases h6 : st.segmentTimeline with _ | tl
            · rw [h6] at h
              dsimp only at h ⊢
              injection h with h
              rw [h]
            · rw [h6] at h
              dsimp only at h
              exact absurd h (by simp)

theorem processRepresentation_no_err (st : SegmentTemplate) (rep : Representation)
    (e : Error) : processRepresentation st rep ≠ .error (.error e) := by
  unfold processRepresentation
  rcases h1 : rep.id with _ | i
  · simp
  · dsimp only
    rcases h2 : rep.baseURL.head? with _ | b
    · simp
    · dsimp only
      rcases h3 : st.initialization with _ | init
      · simp
      · dsimp only
        rcases h4 : st.media with _ | med
        · simp
        · dsimp only
          rcases h5 : st.startNumber with _ | start
          · simp
          · dsimp only
            rcases h6 : st.segmentTimeline with _ | tl
            · simp
            · simp

theorem from_mpeg_no_err (st : SegmentTemplate) :
    ∀ (reps : List Representation) (e : Error),
      from_mpeg_mpd_representations st reps ≠ .error (.error e) := by
  intro reps
  induction reps with
  | nil => intro e; simp [from_mpeg_mpd_representations]
  | cons rep rest ih =>
    intro e
    unfold from_mpeg_mpd_representations
    rcases hp : processRepresentation st rep with f | v
    · dsimp only
      have := processRepresentation_no_err st rep e
      rw [hp] at this
      simpa using this
    · dsimp only
      rcases hr : from_mpeg_mpd_representations st rest with f | vs
      · dsimp only
        have := ih e
        rw [hr] at this
        simpa using this
      · simp

/-! ### Concrete instances used by the claim theorems -/

/-- DASH-addressed variant with start number 5 and a one-entry duration
list, exercising the segment expansion. -/
def c1Variant : VariantData :=
  ⟨⟨0, 0⟩, 0, .ofMpd none, "",
    .mpegDash "R" "b/" "i$RepresentationID$" "s$Number$-$RepresentationID$" 5 [10]⟩

/-- Fetch collaborator returning each URL's own bytes as the body. -/
def echoFetch : Fetch := fun u => .ok (strBytes u)

/-- The four-segment playlist of the key-persistence scenario:
no key block, a key block with URI and explicit IV, no key block,
a key block with URI and no IV. -/
def c5Segs : List MediaSegment :=
  [⟨none, "s0", ⟨0⟩⟩,
   ⟨some ⟨some "keyAkeyAkeyAkeyA", some "IVAIVAIVAIVAIVA1"⟩, "s1", ⟨1⟩⟩,
   ⟨none, "s2", ⟨2⟩⟩,
   ⟨some ⟨some "keyBkeyBkeyBkeyB", none⟩, "s3", ⟨3⟩⟩]

/-- Media-playlist decoder returning the four-segment scenario playlist. -/
def c5Parse : Bytes → Except String MediaPlaylist := fun _ => .ok ⟨c5Segs⟩

/-- HLS-addressed variant pointing at the scenario playlist. -/
def c5Variant : VariantData := ⟨⟨0, 0⟩, 0, .ofMaster none, "", .hls "playlist"⟩

/-- Cipher installed by the scenario's first key block: fetched key bytes
with the explicit IV used verbatim. -/
def cipherA : Aes128CbcDec := ⟨strBytes "keyAkeyAkeyAkeyA", strBytes "IVAIVAIVAIVAIVA1"⟩

/-- Cipher installed by the scenario's second key block: fetched key bytes
also serving as the IV, there being no explicit IV. -/
def cipherB : Aes128CbcDec := ⟨strBytes "keyBkeyBkeyBkeyB", strBytes "keyBkeyBkeyBkeyB"⟩

/-- Fetch collaborator delivering a two-byte segment body. -/
def c3Fetch : Fetch := fun _ => .ok [0, 1]

/-- Cipher collaborator that is never consulted (the segment has no key). -/
def c3Cbc : Aes128CbcDec → Bytes → Except String Bytes := fun _ _ => .error "unused"

/-- A sink whose single `write` call consumes one byte of the buffer —
within the `std::io::Write` contract, which only promises a count up to
the buffer length. -/
def c3Sink : Sink := ⟨fun _ => .ok 1⟩

/-- Key-less segment whose body `c3Fetch` serves. -/
def c3Segment : VariantSegment := ⟨none, "u", ⟨0⟩⟩

/-- Segment template with every required field present. -/
def c4St : SegmentTemplate := ⟨some "i", some "m", some 1, some ⟨[]⟩⟩

/-- Representation lacking an id (all other required fields present). -/
def c4Rep : Representation := ⟨none, none, none, none, none, none, [⟨"b"⟩]⟩

/-- Representation with an id but an empty base-URL list. -/
def c4Rep2 : Representation := ⟨some "R", none, none, none, none, none, []⟩

/-! ### Claim theorems -/

/-- Claim C1.  The claim states that expanding a DASH variant with
duration list `lengths` yields exactly `1 + lengths.length` segments,
media segments numbered `start .. start + lengths.length - 1`.  The code
disagrees: its loop runs over `start .. lengths.len() + start + 1`, one
number too far, so a variant with `lengths = [10]` and `start = 5`
expands to three segments — the zero-duration init segment plus media
segments numbered 5 and 6, the final one with its duration defaulted to
zero — where the claim (and the source's own comment on the `lengths`
field) requires two. -/
theorem dash_segments_extra_segment :
    dash_segments c1Variant = .ok
      [⟨none, "b/iR", ⟨0⟩⟩,
       ⟨none, "b/s5-R", ⟨10000000⟩⟩,
       ⟨none, "b/s6-R", ⟨0⟩⟩] := rfl

/-- Claim C3.  `write_to` hands the sink the decrypted bytes with a single
`Write::write` call and discards the returned count, so a sink that
(legally) consumes only one byte of a two-byte decrypted buffer receives
a strict prefix while `write_to` still succeeds — contradicting the claim
that the sink receives exactly the decrypted bytes on the success path. -/
theorem write_to_partial_write_accepted :
    write_to c3Fetch c3Cbc c3Sink c3Segment = .ok [0]
    ∧ decrypt c3Cbc [0, 1] none = .ok [0, 1]
    ∧ c3Sink.write [0, 1] = .ok 1
    ∧ (1 : Nat) ≤ ([0, 1] : Bytes).length
    ∧ ([0] : Bytes) ≠ [0, 1] :=
  ⟨rfl, rfl, rfl, by simp, by simp⟩

/-- Claim C4 counterexample.  A representation lacking an id makes
variant expansion abort with the panic `"dash representation id"`; it is
not an error value returned to the immediate caller, refuting the claim
that absence of a required field "fails with an error that is returned to
the immediate caller ... rather than ... aborting in another way". -/
theorem missing_representation_id_aborts :
    from_mpeg_mpd_representations c4St [c4Rep] = .error (.panic "dash representation id")
    ∧ ∀ e : Error,
        from_mpeg_mpd_representations c4St [c4Rep] ≠ .error (.error e) :=
  ⟨rfl, fun e => from_mpeg_no_err c4St [c4Rep] e⟩

/-- Claim C4 as amended.  When the first representation lacks a required
field (in the source's evaluation order: id, base URL, initialization
template, media template, start number, segment timeline — `missingField`
returns the corresponding `expect` message), variant expansion aborts
with a panic naming that field; the field is never defaulted.  Moreover
expansion never returns an `Err` value to the immediate caller at all:
every failure of `from_mpeg_mpd_representations` is such a panic. -/
theorem missing_dash_field_aborts :
    (∀ (st : SegmentTemplate) (rep : Representation) (rest : List Representation)
        (m : String), missingField st rep = some m →
          from_mpeg_mpd_representations st (rep :: rest) = .error (.panic m))
    ∧ ∀ (st : SegmentTemplate) (reps : List Representation) (e : Error),
        from_mpeg_mpd_representations st reps ≠ .error (.error e) := by
  constructor
  · intro st rep rest m h
    have hp := processRepresentation_missing st rep m h
    unfold from_mpeg_mpd_representations
    rw [hp]
  · exact fun st reps e => from_mpeg_no_err st reps e

/-- Witness for `missing_dash_field_aborts`: a representation with an id
but an empty base-URL list panics with `"dash base url"`. -/
theorem missing_dash_field_aborts_witness :
    from_mpeg_mpd_representations c4St [c4Rep2] = .error (.panic "dash base url") :=
  missing_dash_field_aborts.1 c4St c4Rep2 [] "dash base url" rfl

/-- Claim C6.  Expanding the DASH segment timeline emits, for each
`(d, r)` pair in timeline order, `r + 1` copies of `d`: the timeline
`[(d = 10, r = 2), (d = 20, r = 0)]` expands to `[10, 10, 10, 20]`, and
in general the flat length is the sum of `r + 1` over all pairs. -/
theorem timeline_expansion_runlength :
    expandTimeline [⟨10, some 2⟩, ⟨20, some 0⟩] = [10, 10, 10, 20]
    ∧ ∀ tl : List S,
        (expandTimeline tl).length = (tl.map fun s => s.r.getD 0 + 1).sum := by
  constructor
  · rfl
  · intro tl
    induction tl with
    | nil => simp [expandTimeline]
    | cons s rest ih => simp [expandTimeline, ih]

/-- Claim C9.  `VariantSegment::decrypt` with no key is the identity on
the input bytes, whatever the external cipher collaborator does. -/
theorem decrypt_none_identity :
    ∀ (cbcDecrypt : Aes128CbcDec → Bytes → Except String Bytes) (b : Bytes),
      decrypt cbcDecrypt b none = .ok b :=
  fun _ _ => rfl

/-- Media-playlist decoder returning an empty playlist. -/
def emptyParse : Bytes → Except String MediaPlaylist := fun _ => .ok ⟨[]⟩

/-- Fetch collaborator returning an empty body. -/
def emptyFetch : Fetch := fun _ => .ok []

/-- Claim C5.  HLS cipher states are threaded left to right from an
initially empty key slot.  Concretely, the playlist
`[no-key, keyA, no-key, keyB]` receives the key states
`[none, keyA, keyA, keyB]` — a key-URI segment installs a new cipher, a
segment without a key block inherits the current one — and in general a
playlist without any key block yields `none` for every segment. -/
theorem hls_key_persistence :
    hls_segments echoFetch c5Parse c5Variant = .ok
      [⟨none, "s0", ⟨0⟩⟩, ⟨some cipherA, "s1", ⟨1⟩⟩,
       ⟨some cipherA, "s2", ⟨2⟩⟩, ⟨some cipherB, "s3", ⟨3⟩⟩]
    ∧ ∀ (fetch : Fetch) (pM : Bytes → Except String MediaPlaylist)
        (v : VariantData) (url : String) (raw : Bytes) (mp : MediaPlaylist),
        v.url = .hls url → fetch url = .ok raw → pM raw = .ok mp →
        (∀ s ∈ mp.segments, s.key = none) →
        hls_segments fetch pM v
          = .ok (mp.segments.map fun s => ⟨none, s.uri, s.duration⟩) := by
  constructor
  · rfl
  · intro fetch pM v url raw mp hurl hf hp hnone
    unfold hls_segments
    rw [hurl]
    dsimp only
    rw [hf]
    dsimp only [liftFetch]
    rw [hp]
    dsimp only
    exact hlsSegmentsLoop_all_none fetch mp.segments hnone

/-- Witness for `hls_key_persistence`: an empty playlist (which trivially
has no key block) expands to the empty segment list. -/
theorem hls_key_persistence_witness :
    hls_segments emptyFetch emptyParse c5Variant = .ok [] :=
  hls_key_persistence.2 emptyFetch emptyParse c5Variant "playlist" [] ⟨[]⟩ rfl rfl rfl
    (by simp)

/-- Claim C7.  For a key block declaring a key URI, the installed cipher
is built from the fetched key bytes and `hlsIv`, where `hlsIv` uses a
supplied nonempty IV verbatim (its bytes) and falls back to the raw key
bytes when the IV is absent or empty. -/
theorem iv_fallback_rule :
    (∀ (fetch : Fetch) (key : Option Aes128CbcDec) (uri u : String)
        (ivOpt : Option String) (dur : Duration) (raw : Bytes),
        fetch u = .ok raw →
          hlsKeyUpdate fetch key ⟨some ⟨some u, ivOpt⟩, uri, dur⟩
            = .ok (some (Aes128CbcDec.new raw (hlsIv ivOpt raw))))
    ∧ (∀ (s : String) (raw : Bytes), s ≠ "" → hlsIv (some s) raw = strBytes s)
    ∧ (∀ raw : Bytes, hlsIv none raw = raw)
    ∧ (∀ raw : Bytes, hlsIv (some "") raw = raw) := by
  refine ⟨?_, ?_, ?_, ?_⟩
  · intro fetch key uri u ivOpt dur raw hf
    unfold hlsKeyUpdate
    dsimp only
    rw [hf]
    rfl
  · intro s raw h
    simp [hlsIv, h]
  · intro raw; rfl
  · intro raw; rfl

/-- Witness for `iv_fallback_rule`: the first key block of the concrete
scenario installs the fetched key with its explicit IV used verbatim. -/
theorem iv_fallback_rule_witness :
    hlsKeyUpdate echoFetch none
        ⟨some ⟨some "keyAkeyAkeyAkeyA", some "IVAIVAIVAIVAIVA1"⟩, "s1", ⟨1⟩⟩
      = .ok (some (Aes128CbcDec.new (strBytes "keyAkeyAkeyAkeyA")
          (hlsIv (some "IVAIVAIVAIVAIVA1") (strBytes "keyAkeyAkeyAkeyA"))))
    ∧ hlsIv (some "IVAIVAIVAIVAIVA1") (strBytes "keyAkeyAkeyAkeyA")
        = strBytes "IVAIVAIVAIVAIVA1" :=
  ⟨iv_fallback_rule.1 echoFetch none "s1" "keyAkeyAkeyAkeyA" (some "IVAIVAIVAIVAIVA1")
      ⟨1⟩ (strBytes "keyAkeyAkeyAkeyA") rfl,
   iv_fallback_rule.2.1 "IVAIVAIVAIVAIVA1" (strBytes "keyAkeyAkeyAkeyA") (by decide)⟩

/-- Claim C10.  `VariantData::segments` dispatches exhaustively on the
addressing mode, so the internal mode-mismatch errors of `hls_segments`
and `dash_segments` can never escape from `segments`, whatever the
collaborators do. -/
theorem segments_mode_errors_unreachable :
    ∀ (fetch : Fetch) (pM : Bytes → Except String MediaPlaylist) (v : VariantData),
      segments fetch pM v ≠ .error (.error (.internal "variant url should be hls"))
      ∧ segments fetch pM v ≠ .error (.error (.internal "variant url should be dash")) := by
  intro fetch pM v
  have key : ∀ msg : String, segments fetch pM v ≠ .error (.error (.internal msg)) := by
    intro msg
    unfold segments
    rcases hurl : v.url with url | ⟨id, base, init, frag, start, lengths⟩
    · dsimp only
      unfold hls_segments
      rw [hurl]
      dsimp only
      rcases liftFetch_shape (fetch url) with ⟨b, hb⟩ | ⟨t, ht⟩
      · rw [hb]
        dsimp only
        rcases hp : pM b with e | mp
        · dsimp only; simp
        · dsimp only
          exact hlsSegmentsLoop_not_internal fetch msg mp.segments none
      · rw [ht]; simp
    · dsimp only
      unfold dash_segments
      rw [hurl]
      simp
  exact ⟨key _, key _⟩

/-- Witness for `segments_mode_errors_unreachable` at a concrete DASH
variant and concrete collaborators. -/
theorem segments_mode_errors_unreachable_witness :
    segments echoFetch c5Parse c1Variant
        ≠ .error (.error (.internal "variant url should be hls"))
    ∧ segments echoFetch c5Parse c1Variant
        ≠ .error (.error (.internal "variant url should be dash")) :=
  segments_mode_errors_unreachable echoFetch c5Parse c1Variant

/-- Raw stream descriptor with both transports populated. -/
def wsBoth : RawStream := ⟨some ⟨"H"⟩, some ⟨"D"⟩⟩

/-- Raw stream descriptor with neither transport populated. -/
def wsNone : RawStream := ⟨none, none⟩

/-- Stream whose variants map holds only the empty-string sentinel. -/
def stEmptyKey : Stream := ⟨[(Locale.custom "", wsBoth)]⟩

/-- Stream whose variants map holds only the `":"` sentinel. -/
def stColonOnly : Stream := ⟨[(Locale.custom ":", wsBoth)]⟩

/-- Stream with an empty variants map. -/
def stNoSentinel : Stream := ⟨[]⟩

/-- Stream whose variants map holds only the locale `"en-US"`. -/
def stEn : Stream := ⟨[(Locale.custom "en-US", wsBoth)]⟩

/-- Stream whose `"en-US"` descriptor has neither transport. -/
def stEnNone : Stream := ⟨[(Locale.custom "en-US", wsNone)]⟩

/-- Fetch collaborator that always fails with a transport error. -/
def noFetch : Fetch := fun _ => .error ⟨0⟩

/-- Master-playlist decoder that always fails. -/
def noPM : Bytes → Except String MasterPlaylist := fun _ => .error ""

/-- MPD decoder that always fails. -/
def noPD : Bytes → Except String MPD := fun _ => .error ""

/-- Claim C2 counterexample.  With no requested hardsub locale, the DASH
resolution never consults the `":"` sentinel: a variants map holding only
the `":"` key — with a populated DASH transport — makes
`dash_streaming_data` fail with `Internal "could not find supported
stream"`, where the claim requires the `":"` sentinel to be tried after
the empty-string sentinel for the DASH transport as well. -/
theorem dash_fallback_skips_colon_sentinel :
    getVariant stColonOnly.variants (Locale.custom ":") = some wsBoth
    ∧ wsBoth.adaptive_dash = some ⟨"D"⟩
    ∧ dash_streaming_data noFetch noPD stColonOnly none
        = .error (.error (.internal "could not find supported stream")) :=
  ⟨rfl, rfl, rfl⟩

/-- Claim C2 as amended.  With no requested hardsub locale, the HLS
resolution tries the empty-string sentinel and then the `":"` sentinel in
that fixed order, committing to the first present key ("no stream
available" when its HLS transport is empty) and failing with
`Internal "could not find supported stream"` when neither key exists; the
DASH resolution tries only the empty-string sentinel, committing to it
when present and failing with the same internal error otherwise — the
`":"` sentinel is never consulted for DASH. -/
theorem locale_fallback_resolution :
    ∀ (fetch : Fetch) (pM : Bytes → Except String MasterPlaylist)
      (pD : Bytes → Except String MPD) (st : Stream) (rs : RawStream),
      (getVariant st.variants (Locale.custom "") = some rs →
        hls_streaming_data fetch pM st none
          = (match rs.adaptive_hls with
             | some s => from_hls_master fetch pM s.url
             | none => .error (.error (.input "no stream available")))
        ∧ dash_streaming_data fetch pD st none
          = (match rs.adaptive_dash with
             | some s => dashAfterUrl fetch pD s.url
             | none => .error (.error (.input "no stream available"))))
      ∧ (getVariant st.variants (Locale.custom "") = none →
          (getVariant st.variants (Locale.custom ":") = some rs →
            hls_streaming_data fetch pM st none
              = (match rs.adaptive_hls with
                 | some s => from_hls_master fetch pM s.url
                 | none => .error (.error (.input "no stream available"))))
          ∧ (getVariant st.variants (Locale.custom ":") = none →
              hls_streaming_data fetch pM st none
                = .error (.error (.internal "could not find supported stream")))
          ∧ dash_streaming_data fetch pD st none
              = .error (.error (.internal "could not find supported stream"))) := by
  intro fetch pM pD st rs
  constructor
  · intro h
    constructor
    · unfold hls_streaming_data
      dsimp only
      rw [h]
    · unfold dash_streaming_data
      dsimp only
      rw [h]
  · intro h0
    refine ⟨?_, ?_, ?_⟩
    · intro hc
      unfold hls_streaming_data
      dsimp only
      rw [h0]
      dsimp only
      rw [hc]
    · intro hc
      unfold hls_streaming_data
      dsimp only
      rw [h0]
      dsimp only
      rw [hc]
    · unfold dash_streaming_data
      dsimp only
      rw [h0]

/-- Witness for `locale_fallback_resolution`, discharging each branch at
a concrete variants map: the empty-string sentinel commits both
transports, the `":"` sentinel serves HLS only, and resolution fails with
the internal error when the consulted sentinels are absent. -/
theorem locale_fallback_resolution_witness :
    hls_streaming_data noFetch noPM stEmptyKey none = from_hls_master noFetch noPM "H"
    ∧ dash_streaming_data noFetch noPD stEmptyKey none = dashAfterUrl noFetch noPD "D"
    ∧ hls_streaming_data noFetch noPM stColonOnly none = from_hls_master noFetch noPM "H"
    ∧ hls_streaming_data noFetch noPM stNoSentinel none
        = .error (.error (.internal "could not find supported stream"))
    ∧ dash_streaming_data noFetch noPD stColonOnly none
        = .error (.error (.internal "could not find supported stream")) :=
  ⟨((locale_fallback_resolution noFetch noPM noPD stEmptyKey wsBoth).1 rfl).1,
   ((locale_fallback_resolution noFetch noPM noPD stEmptyKey wsBoth).1 rfl).2,
   (((locale_fallback_resolution noFetch noPM noPD stColonOnly wsBoth).2 rfl).1 rfl),
   (((locale_fallback_resolution noFetch noPM noPD stNoSentinel wsBoth).2 rfl).2.1 rfl),
   (((locale_fallback_resolution noFetch noPM noPD stColonOnly wsBoth).2 rfl).2.2)⟩

/-- Claim C8.  With an explicitly requested hardsub locale, resolution
(HLS and DASH alike) requires the exact locale key: an absent key fails
with the input error naming the requested locale, a present key with an
absent requested transport fails with "no stream available", and a
present key with the transport populated proceeds with exactly that
descriptor's URL — never an empty success. -/
theorem explicit_locale_resolution :
    ∀ (fetch : Fetch) (pM : Bytes → Except String MasterPlaylist)
      (pD : Bytes → Except String MPD) (st : Stream) (l : Locale),
      (getVariant st.variants l = none →
        hls_streaming_data fetch pM st (some l)
          = .error (.error (.input
              ("could not find any stream with hardsub locale '" ++ l.tag ++ "'")))
        ∧ dash_streaming_data fetch pD st (some l)
          = .error (.error (.input
              ("could not find any stream with hardsub locale '" ++ l.tag ++ "'"))))
      ∧ ∀ rs : RawStream, getVariant st.variants l = some rs →
          (rs.adaptive_hls = none →
            hls_streaming_data fetch pM st (some l)
              = .error (.error (.input "no stream available")))
          ∧ (rs.adaptive_dash = none →
            dash_streaming_data fetch pD st (some l)
              = .error (.error (.input "no stream available")))
          ∧ (∀ s : StreamUrl, rs.adaptive_hls = some s →
            hls_streaming_data fetch pM st (some l) = from_hls_master fetch pM s.url)
          ∧ (∀ s : StreamUrl, rs.adaptive_dash = some s →
            dash_streaming_data fetch pD st (some l) = dashAfterUrl fetch pD s.url) := by
  intro fetch pM pD st l
  constructor
  · intro h
    constructor
    · unfold hls_streaming_data
      dsimp only
      rw [h]
    · unfold dash_streaming_data
      dsimp only
      rw [h]
  · intro rs h
    refine ⟨?_, ?_, ?_, ?_⟩
    · intro hh
      unfold hls_streaming_data
      dsimp only
      rw [h]
      dsimp only
      rw [hh]
    · intro hd
      unfold dash_streaming_data
      dsimp only
      rw [h]
      dsimp only
      rw [hd]
    · intro s hh
      unfold hls_streaming_data
      dsimp only
      rw [h]
      dsimp only
      rw [hh]
    · intro s hd
      unfold dash_streaming_data
      dsimp only
      rw [h]
      dsimp only
      rw [hd]

/-- Witness for `explicit_locale_resolution`: requesting `"fr-FR"`
against a map holding only `"en-US"` yields the locale-naming error for
both transports; a present locale without transports yields "no stream
available"; a present locale with transports proceeds with its URLs. -/
theorem explicit_locale_resolution_witness :
    hls_streaming_data noFetch noPM stEn (some (Locale.custom "fr-FR"))
      = .error (.error (.input "could not find any stream with hardsub locale 'fr-FR'"))
    ∧ dash_streaming_data noFetch noPD stEn (some (Locale.custom "fr-FR"))
      = .error (.error (.input "could not find any stream with hardsub locale 'fr-FR'"))
    ∧ hls_streaming_data noFetch noPM stEnNone (some (Locale.custom "en-US"))
      = .error (.error (.input "no stream available"))
    ∧ dash_streaming_data noFetch noPD stEnNone (some (Locale.custom "en-US"))
      = .error (.error (.input "no stream available"))
    ∧ hls_streaming_data noFetch noPM stEn (some (Locale.custom "en-US"))
      = from_hls_master noFetch noPM "H"
    ∧ dash_streaming_data noFetch noPD stEn (some (Locale.custom "en-US"))
      = dashAfterUrl noFetch noPD "D" :=
  ⟨((explicit_locale_resolution noFetch noPM noPD stEn (Locale.custom "fr-FR")).1 rfl).1,
   ((explicit_locale_resolution noFetch noPM noPD stEn (Locale.custom "fr-FR")).1 rfl).2,
   (((explicit_locale_resolution noFetch noPM noPD stEnNone (Locale.custom "en-US")).2 wsNone rfl).1 rfl),
   (((explicit_locale_resolution noFetch noPM noPD stEnNone (Locale.custom "en-US")).2 wsNone rfl).2.1 rfl),
   (((explicit_locale_resolution noFetch noPM noPD stEn (Locale.custom "en-US")).2 wsBoth rfl).2.2.1 ⟨"H"⟩ rfl),
   (((explicit_locale_resolution noFetch noPM noPD stEn (Locale.custom "en-US")).2 wsBoth rfl).2.2.2 ⟨"D"⟩ rfl)⟩

end CrunchyStreaming
